import Mathlib

/-
  Shallow embedding of the lua-rados C module (lua_rados.c): a Lua binding
  over librados exposing Cluster, IoContext, Completion and Buffer objects.

  The backend (librados) is external: every backend call is modelled by a
  parameter giving its status code and, where relevant, the data it produces,
  as a function of the inputs the C code passes to it (in particular the
  locator key currently set on the native io context, which is how locator
  scoping becomes observable).

  Lua-level call outcomes are modelled by `CallResult`:
  - `ok v` : normal return values;
  - `err m r` : the nil/error-message/retval triple pushed by
    `lua_rados_pusherror` (the message is `strerror (-ret)`, recorded here by
    its argument `m = -ret`);
  - `raised e` : a `luaL_argerror` / `luaL_checkstring` raised Lua error.
-/

namespace LuaRados

/-- Byte sequences held in read buffers. -/
abbrev Bytes := List Nat

inductive cluster_state_t where
  | CLUSTER_CONFIGURING
  | CLUSTER_CONNECTED
  | CLUSTER_SHUTDOWN
deriving DecidableEq, Repr

inductive ioctx_state_t where
  | IOCTX_OPEN
  | IOCTX_CLOSED
deriving DecidableEq, Repr

inductive completion_state_t where
  | COMPLETION_STAT
  | COMPLETION_READ
deriving DecidableEq, Repr

/-- The messages passed to luaL_argerror, plus the luaL_checkstring type
error; these are raised Lua errors, not nil/error/retval results. -/
inductive ArgError where
  | reuse_shutdown_rados
  | not_connected
  | already_connected
  | reuse_closed_ioctx
  | string_expected
deriving DecidableEq, Repr

inductive CallResult (A : Type) where
  | ok : A → CallResult A
  | err : Int → Int → CallResult A
  | raised : ArgError → CallResult A
deriving DecidableEq, Repr

/-- lua_rados_pusherror: pushes nil, strerror (-ret), ret. -/
def lua_rados_pusherror {A : Type} (ret : Int) : CallResult A :=
  .err (-ret) ret

/-- lua_rados_pushresult: push ret as the value, or the error triple. -/
def lua_rados_pushresult (isOk : Bool) (ret : Int) : CallResult Int :=
  if isOk then .ok ret else lua_rados_pusherror ret

/-- lua_rados_t: native cluster handle (none models NULL) and state. -/
structure lua_rados_t where
  cluster : Option Nat
  state : cluster_state_t
deriving DecidableEq, Repr

/-- lua_rados_connect: guarded by lua_rados_checkcluster (raises on a
shutdown handle) and an explicit already-connected check; `connectRet` is
the status returned by the backend rados_connect call. -/
def lua_rados_connect (rados : lua_rados_t) (connectRet : Int) :
    CallResult Int × lua_rados_t :=
  if rados.state = .CLUSTER_SHUTDOWN then
    (.raised .reuse_shutdown_rados, rados)
  else if rados.state = .CLUSTER_CONNECTED then
    (.raised .already_connected, rados)
  else
    let rados1 :=
      if connectRet = 0 then { rados with state := .CLUSTER_CONNECTED }
      else rados
    (lua_rados_pushresult (connectRet == 0) connectRet, rados1)

/-- lua_rados_is_connected: uses lua_rados_checkcluster_1, which performs no
lifecycle-state check, and pushes state == CLUSTER_CONNECTED. -/
def lua_rados_is_connected (rados : lua_rados_t) :
    CallResult Bool × lua_rados_t :=
  (.ok (rados.state == .CLUSTER_CONNECTED), rados)

/-- lua_rados_shutdown: guarded by lua_rados_checkcluster_conn (raises on a
shutdown handle, then on a non-connected handle); tears the handle down and
nulls it. -/
def lua_rados_shutdown (rados : lua_rados_t) :
    CallResult Unit × lua_rados_t :=
  if rados.state = .CLUSTER_SHUTDOWN then
    (.raised .reuse_shutdown_rados, rados)
  else if rados.state ≠ .CLUSTER_CONNECTED then
    (.raised .not_connected, rados)
  else
    (.ok (), { cluster := none, state := .CLUSTER_SHUTDOWN })

/-- Which native-release path the cluster finalizer takes. -/
inductive GcPath where
  | teardown
  | allocFree
  | untouched
deriving DecidableEq, Repr

/-- lua_rados_cluster_gc: rados_shutdown only if connected; a non-null
never-connected handle is released with free(); state becomes shutdown. -/
def lua_rados_cluster_gc (rados : lua_rados_t) : GcPath × lua_rados_t :=
  if rados.state = .CLUSTER_CONNECTED then
    (.teardown, { rados with state := .CLUSTER_SHUTDOWN })
  else
    match rados.cluster with
    | some _ => (.allocFree, { cluster := none, state := .CLUSTER_SHUTDOWN })
    | none => (.untouched, { rados with state := .CLUSTER_SHUTDOWN })

/-- lua_ioctx_t: native io context (its mutable client-side locator key)
and handle state.  The locator key is the piece of native io-context state
the module mutates, via rados_ioctx_locator_set_key. -/
structure lua_ioctx_t where
  locator : Option String
  state : ioctx_state_t
deriving DecidableEq, Repr

/-- rados_ioctx_locator_set_key on the native io context. -/
def rados_ioctx_locator_set_key (ioctx : lua_ioctx_t) (loc : Option String) :
    lua_ioctx_t :=
  { ioctx with locator := loc }

/-- Lua values as far as the argument marshalling here needs them. -/
inductive LuaValue where
  | vnil
  | vstr : String → LuaValue
  | vnum : Int → LuaValue
  | vtable
deriving DecidableEq, Repr

/-- luaL_checkstring (via lua_tolstring): accepts a string, coerces a
number to its decimal representation, and raises on anything else. -/
def luaL_checkstring : LuaValue → Option String
  | .vstr s => some s
  | .vnum n => some (toString n)
  | _ => none

/-- lua_rados_open_ioctx: guarded by lua_rados_checkcluster_conn, then
luaL_checkstring on the pool name; `ioctxCreateRet` is the status of the
backend rados_ioctx_create for a given pool name.  The Bool records
whether a native io context was created by the backend.  (The weak-key
registry insertion that follows on success always finds the registry
table installed by luaopen_rados, so its failure path is not reachable
within the module and is not modelled.) -/
def lua_rados_open_ioctx (rados : lua_rados_t) (pool : LuaValue)
    (ioctxCreateRet : String → Int) :
    CallResult lua_ioctx_t × Bool :=
  if rados.state = .CLUSTER_SHUTDOWN then
    (.raised .reuse_shutdown_rados, false)
  else if rados.state ≠ .CLUSTER_CONNECTED then
    (.raised .not_connected, false)
  else
    match luaL_checkstring pool with
    | none => (.raised .string_expected, false)
    | some pool_name =>
      let ret := ioctxCreateRet pool_name
      if ret ≠ 0 then (lua_rados_pusherror ret, false)
      else (.ok { locator := none, state := .IOCTX_OPEN }, true)

/-- lua_rados_ioctx_close. -/
def lua_rados_ioctx_close (ioctx : lua_ioctx_t) :
    CallResult Unit × lua_ioctx_t :=
  if ioctx.state ≠ .IOCTX_OPEN then (.raised .reuse_closed_ioctx, ioctx)
  else (.ok (), { ioctx with state := .IOCTX_CLOSED })

/-- Backend behaviour of rados_stat, as a function of the locator key set
on the io context at call time and the object id. -/
structure StatBackend where
  ret : Option String → String → Int
  size : Option String → String → Nat
  mtime : Option String → String → Int

/-- lua_rados_ioctx_stat: sets the locator key, performs the backend stat,
clears the key again before looking at the status, then pushes either the
error triple or (size, mtime). -/
def lua_rados_ioctx_stat (b : StatBackend) (ioctx : lua_ioctx_t)
    (loc : Option String) (oid : String) :
    CallResult (Nat × Int) × lua_ioctx_t :=
  if ioctx.state ≠ .IOCTX_OPEN then (.raised .reuse_closed_ioctx, ioctx)
  else
    let io1 := rados_ioctx_locator_set_key ioctx loc
    let ret := b.ret io1.locator oid
    let size := b.size io1.locator oid
    let mtime := b.mtime io1.locator oid
    let io2 := rados_ioctx_locator_set_key io1 none
    if ret ≠ 0 then (lua_rados_pusherror ret, io2)
    else (.ok (size, mtime), io2)

def ENOMEM : Int := 12

/-- lua_rados_newbuffer, allocation-size part: NULL for a negative size,
otherwise an allocation of max(size, 1) zeroed bytes. -/
def lua_rados_newbuffer_size (size : Int) : Option Nat :=
  if size < 0 then none
  else if size = 0 then some 1
  else some size.toNat

/-- lua_rados_buffer_gc: free the owned allocation and null the pointer;
the Bool records whether this call actually freed. -/
def lua_rados_buffer_gc (pbuf : Option Bytes) : Option Bytes × Bool :=
  match pbuf with
  | some _ => (none, true)
  | none => (none, false)

/-- The backend writing `data` into the front of buffer `buf`. -/
def overwrite (buf data : Bytes) : Bytes :=
  data.take buf.length ++ buf.drop data.length

/-- Backend behaviour of rados_read: status (bytes actually read, or a
negative errno) and the bytes written into the buffer, as functions of
the locator key at call time, object id, requested size and offset. -/
structure ReadBackend where
  ret : Option String → String → Nat → Nat → Int
  fill : Option String → String → Nat → Nat → Bytes

/-- lua_rados_ioctx_read: allocates the result buffer through
lua_rados_newbuffer (error triple with -ENOMEM when that yields NULL,
covering both a negative size and a malloc failure, modelled by
`mallocOk`), then scopes the locator key around the backend read and
pushes the first `ret` bytes of the buffer on success. -/
def lua_rados_ioctx_read (b : ReadBackend) (ioctx : lua_ioctx_t)
    (loc : Option String) (oid : String) (size : Int) (off : Nat)
    (mallocOk : Bool) :
    CallResult Bytes × lua_ioctx_t :=
  if ioctx.state ≠ .IOCTX_OPEN then (.raised .reuse_closed_ioctx, ioctx)
  else
    match lua_rados_newbuffer_size size, mallocOk with
    | none, _ => (lua_rados_pusherror (-ENOMEM), ioctx)
    | some _, false => (lua_rados_pusherror (-ENOMEM), ioctx)
    | some bufsize, true =>
      let buf0 : Bytes := List.replicate bufsize 0
      let io1 := rados_ioctx_locator_set_key ioctx loc
      let ret := b.ret io1.locator oid size.toNat off
      let buf1 := overwrite buf0 (b.fill io1.locator oid size.toNat off)
      let io2 := rados_ioctx_locator_set_key io1 none
      if ret < 0 then (lua_rados_pusherror ret, io2)
      else (.ok (buf1.take ret.toNat), io2)

/-- lua_completion_t: async token (none models NULL), operation kind, and
the result storage (the C source overlays mtime and buf in a union keyed
by the kind; they are kept as separate fields here, accessed only as the
kind dictates, exactly as the source does). -/
structure lua_completion_t where
  completion : Option Nat
  state : completion_state_t
  size : Nat
  mtime : Int
  buf : Option Bytes
deriving DecidableEq, Repr

/-- Result of an asynchronous submission call (aio_stat / aio_read):
the Lua return values, the io context afterwards, the completion userdata
created by the call (none only when the call raised before creating it),
the increment applied to the global active_completions counter, and the
malloc argument used for the read buffer (none for stat). -/
structure AioOut where
  res : CallResult lua_completion_t
  io : lua_ioctx_t
  comp : Option lua_completion_t
  delta : Int
  allocReq : Option Nat
deriving DecidableEq, Repr

/-- Backend behaviour of rados_aio_create_completion and rados_aio_stat:
creation status, submission status, and the size/mtime values the
operation eventually stores through the pointers handed to it, as
functions of the locator key at submission time and the object id. -/
structure AioStatBackend where
  createRet : Int
  subRet : Option String → String → Int
  size : Option String → String → Nat
  mtime : Option String → String → Int

/-- lua_rados_ioctx_aio_stat: creates the completion userdata (kind stat,
token NULL), creates the backend token (error triple on failure),
increments active_completions, scopes the locator key around the
submission, and surfaces a submission failure as the error triple;
`tok` is the fresh native token identity. -/
def lua_rados_ioctx_aio_stat (b : AioStatBackend) (ioctx : lua_ioctx_t)
    (loc : Option String) (oid : String) (tok : Nat) : AioOut :=
  if ioctx.state ≠ .IOCTX_OPEN then
    { res := .raised .reuse_closed_ioctx, io := ioctx, comp := none,
      delta := 0, allocReq := none }
  else
    let comp0 : lua_completion_t :=
      { completion := none, state := .COMPLETION_STAT,
        size := 0, mtime := 0, buf := none }
    if b.createRet ≠ 0 then
      { res := lua_rados_pusherror b.createRet, io := ioctx,
        comp := some comp0, delta := 0, allocReq := none }
    else
      let comp1 := { comp0 with completion := some tok }
      let io1 := rados_ioctx_locator_set_key ioctx loc
      let sub := b.subRet io1.locator oid
      let comp2 := { comp1 with size := b.size io1.locator oid,
                                mtime := b.mtime io1.locator oid }
      let io2 := rados_ioctx_locator_set_key io1 none
      if sub ≠ 0 then
        { res := lua_rados_pusherror sub, io := io2,
          comp := some comp2, delta := 1, allocReq := none }
      else
        { res := .ok comp2, io := io2,
          comp := some comp2, delta := 1, allocReq := none }

/-- Backend behaviour of rados_aio_create_completion and rados_aio_read. -/
structure AioReadBackend where
  createRet : Int
  subRet : Option String → String → Nat → Nat → Int
  fill : Option String → String → Nat → Nat → Bytes

/-- The uninitialized malloc'd read buffer of aio_read: `size` bytes of
arbitrary content (the model takes the content as the parameter `junk`;
unlike the synchronous path's lua_rados_newbuffer it is NOT zeroed). -/
def mallocBuf (size : Nat) (junk : Bytes) : Bytes :=
  (junk ++ List.replicate size 0).take size

/-- lua_rados_ioctx_aio_read: creates the completion userdata (kind read,
token NULL, stored size := requested size), calls malloc with exactly the
requested size (error triple with -ENOMEM on failure), creates the backend
token, increments active_completions, scopes the locator key around the
submission, and surfaces a submission failure as the error triple. -/
def lua_rados_ioctx_aio_read (b : AioReadBackend) (ioctx : lua_ioctx_t)
    (loc : Option String) (oid : String) (size : Nat) (off : Nat)
    (tok : Nat) (mallocOk : Bool) (junk : Bytes) : AioOut :=
  if ioctx.state ≠ .IOCTX_OPEN then
    { res := .raised .reuse_closed_ioctx, io := ioctx, comp := none,
      delta := 0, allocReq := none }
  else
    let comp0 : lua_completion_t :=
      { completion := none, state := .COMPLETION_READ,
        size := size, mtime := 0, buf := none }
    if ¬mallocOk then
      { res := lua_rados_pusherror (-ENOMEM), io := ioctx,
        comp := some comp0, delta := 0, allocReq := some size }
    else
      let comp1 := { comp0 with buf := some (mallocBuf size junk) }
      if b.createRet ≠ 0 then
        { res := lua_rados_pusherror b.createRet, io := ioctx,
          comp := some comp1, delta := 0, allocReq := some size }
      else
        let comp2 := { comp1 with completion := some tok }
        let io1 := rados_ioctx_locator_set_key ioctx loc
        let sub := b.subRet io1.locator oid size off
        let comp3 :=
          { comp2 with buf := some (overwrite (mallocBuf size junk)
                                      (b.fill io1.locator oid size off)) }
        let io2 := rados_ioctx_locator_set_key io1 none
        if sub ≠ 0 then
          { res := lua_rados_pusherror sub, io := io2,
            comp := some comp3, delta := 1, allocReq := some size }
        else
          { res := .ok comp3, io := io2,
            comp := some comp3, delta := 1, allocReq := some size }

/-- The two shapes lua_rados_completion_get_return_value can push. -/
inductive RetVal where
  | statRes : Nat → Int → RetVal
  | readRes : Bytes → RetVal
deriving DecidableEq, Repr

/-- lua_rados_completion_get_return_value: `harvestRet` is the status
returned by rados_aio_get_return_value; a negative status becomes the
error triple; otherwise the stat kind pushes the two stored scalars and
the read kind pushes comp->size bytes of comp->buf.  (The C fall-through
for an unhandled kind is unreachable: the kind enum has exactly these two
values.) -/
def lua_rados_completion_get_return_value (comp : lua_completion_t)
    (harvestRet : Int) : CallResult RetVal :=
  if harvestRet < 0 then lua_rados_pusherror harvestRet
  else
    match comp.state with
    | .COMPLETION_STAT => .ok (.statRes comp.size comp.mtime)
    | .COMPLETION_READ => .ok (.readRes ((comp.buf.getD []).take comp.size))

/-- lua_rados_completion_gc: release the async token if non-null (nulling
it and decrementing active_completions by one), then free the read buffer
if non-null (nulling it).  Returns the completion afterwards, the counter
delta, and whether the buffer was freed by this call. -/
def lua_rados_completion_gc (comp : lua_completion_t) :
    lua_completion_t × Int × Bool :=
  let td :=
    match comp.completion with
    | some _ => ({ comp with completion := none }, (-1 : Int))
    | none => (comp, 0)
  let comp1 := td.1
  if comp1.state = .COMPLETION_READ ∧ comp1.buf ≠ none then
    ({ comp1 with buf := none }, td.2, true)
  else
    (comp1, td.2, false)

/-- The process-wide state the module keeps besides the individual
userdata: the active_completions counter, together with every completion
userdata created so far (live Lua objects). -/
structure RadosWorld where
  active_completions : Int
  comps : List lua_completion_t
deriving DecidableEq, Repr

def initWorld : RadosWorld := { active_completions := 0, comps := [] }

/-- lua_rados_open_completions: reads the counter
(__sync_add_and_fetch with 0). -/
def lua_rados_open_completions (w : RadosWorld) : Int :=
  w.active_completions

/-- The counter-relevant effect of the module's calls, as events: an aio
call whose rados_aio_create_completion succeeded or failed (the increment
is performed exactly when it succeeded, and exactly then does the new
completion hold a token), and the finalizer running on completion `i`. -/
inductive WEvent where
  | aioCreate (createOk : Bool) (kind : completion_state_t) (tok : Nat)
  | compGc (i : Nat)

def stepWorld (w : RadosWorld) (e : WEvent) : RadosWorld :=
  match e with
  | .aioCreate createOk kind tok =>
    let comp : lua_completion_t :=
      { completion := if createOk then some tok else none, state := kind,
        size := 0, mtime := 0, buf := none }
    { active_completions :=
        w.active_completions + (if createOk then 1 else 0),
      comps := w.comps ++ [comp] }
  | .compGc i =>
    match w.comps[i]? with
    | none => w
    | some comp =>
      let g := lua_rados_completion_gc comp
      { active_completions := w.active_completions + g.2.1,
        comps := w.comps.set i g.1 }

def runWorld (es : List WEvent) : RadosWorld :=
  es.foldl stepWorld initWorld

/-- The number of live completion userdata currently holding a non-null
native async token. -/
def liveTokens : List lua_completion_t → Nat
  | [] => 0
  | c :: cs => (if c.completion.isSome then 1 else 0) + liveTokens cs

/- Concrete instances used to exercise the definitions. -/

def sbZero : StatBackend :=
  { ret := fun _ _ => 0, size := fun _ _ => 7, mtime := fun _ _ => 3 }

def rbZero : ReadBackend :=
  { ret := fun _ _ _ _ => 0, fill := fun _ _ _ _ => [] }

def asbZero : AioStatBackend :=
  { createRet := 0, subRet := fun _ _ => 0,
    size := fun _ _ => 5, mtime := fun _ _ => 9 }

def arbZero : AioReadBackend :=
  { createRet := 0, subRet := fun _ _ _ _ => 0, fill := fun _ _ _ _ => [] }

def ioctxOpen0 : lua_ioctx_t := { locator := none, state := .IOCTX_OPEN }

/- Theorems. -/

/-- C10: `is_connected` goes through lua_rados_checkcluster_1, which makes
no lifecycle-state check, so on every cluster handle — shutdown and
never-connected configuring included — it neither raises nor returns an
error triple, leaves the handle unchanged, and returns true exactly when
the state is connected. -/
theorem is_connected_total (rados : lua_rados_t) :
    (∀ e : ArgError, (lua_rados_is_connected rados).1 ≠ .raised e) ∧
    (∀ m r : Int, (lua_rados_is_connected rados).1 ≠ .err m r) ∧
    ((lua_rados_is_connected rados).1 = .ok true ↔
      rados.state = .CLUSTER_CONNECTED) ∧
    (lua_rados_is_connected rados).2 = rados := by
  obtain ⟨c, s⟩ := rados
  cases s <;> simp [lua_rados_is_connected]

/-- C3: `connect` raises the already-connected argument error on a
connected handle and the reuse-after-shutdown argument error on a
shutdown handle; from the configuring state a backend success returns 0
and moves the state to connected, while a backend failure surfaces the
error triple and leaves the state unchanged — hence connect succeeds at
most once per handle: a connect following a successful connect raises. -/
theorem connect_lifecycle (rados : lua_rados_t) (connectRet retB : Int) :
    (rados.state = .CLUSTER_CONNECTED →
      lua_rados_connect rados connectRet =
        (.raised .already_connected, rados)) ∧
    (rados.state = .CLUSTER_SHUTDOWN →
      lua_rados_connect rados connectRet =
        (.raised .reuse_shutdown_rados, rados)) ∧
    (rados.state = .CLUSTER_CONFIGURING → connectRet = 0 →
      lua_rados_connect rados connectRet =
        (.ok 0, { rados with state := .CLUSTER_CONNECTED })) ∧
    (rados.state = .CLUSTER_CONFIGURING → connectRet ≠ 0 →
      lua_rados_connect rados connectRet =
        (lua_rados_pusherror connectRet, rados)) ∧
    (rados.state = .CLUSTER_CONFIGURING → connectRet = 0 →
      lua_rados_connect (lua_rados_connect rados connectRet).2 retB =
        (.raised .already_connected, (lua_rados_connect rados connectRet).2)) := by
  obtain ⟨c, s⟩ := rados
  refine ⟨?_, ?_, ?_, ?_, ?_⟩ <;> intro hs
  · cases s <;> simp_all [lua_rados_connect]
  · cases s <;> simp_all [lua_rados_connect]
  · intro hr
    cases s <;> simp_all [lua_rados_connect, lua_rados_pushresult]
  · intro hr
    cases s <;> simp_all [lua_rados_connect, lua_rados_pushresult]
  · intro hr
    cases s <;> simp_all [lua_rados_connect, lua_rados_pushresult]

theorem connect_lifecycle_witness :
    lua_rados_connect { cluster := some 0, state := .CLUSTER_CONFIGURING } 0 =
      (.ok 0, { cluster := some 0, state := .CLUSTER_CONNECTED }) := by
  have h :=
    (connect_lifecycle { cluster := some 0, state := .CLUSTER_CONFIGURING }
      0 0).2.2.1 rfl rfl
  exact h

/-- C4: the cluster finalizer leaves the state shutdown; the
connection-teardown path (rados_shutdown) is taken exactly on a connected
handle, so a never-connected or connect-failed handle is never torn down
through it (its still-allocated handle goes through the allocator free
path instead); and after an explicit shutdown the finalizer touches the
(nulled) native handle through neither path, so it is released at most
once. -/
theorem cluster_gc_paths (rados : lua_rados_t) :
    ((lua_rados_cluster_gc rados).2.state = .CLUSTER_SHUTDOWN) ∧
    ((lua_rados_cluster_gc rados).1 = .teardown ↔
      rados.state = .CLUSTER_CONNECTED) ∧
    (rados.state ≠ .CLUSTER_CONNECTED →
      (lua_rados_cluster_gc rados).1 ≠ .teardown) ∧
    (rados.state ≠ .CLUSTER_CONNECTED → rados.cluster ≠ none →
      (lua_rados_cluster_gc rados).1 = .allocFree ∧
      (lua_rados_cluster_gc rados).2.cluster = none) ∧
    (rados.state = .CLUSTER_CONNECTED →
      (lua_rados_cluster_gc (lua_rados_shutdown rados).2).1 = .untouched) := by
  obtain ⟨c, s⟩ := rados
  cases s <;> cases c <;>
    simp [lua_rados_cluster_gc, lua_rados_shutdown]

theorem cluster_gc_paths_witness :
    ((lua_rados_cluster_gc
        { cluster := some 0, state := .CLUSTER_CONFIGURING }).1 ≠
      GcPath.teardown) ∧
    ((lua_rados_cluster_gc
        (lua_rados_shutdown
          { cluster := some 0, state := .CLUSTER_CONNECTED }).2).1 =
      GcPath.untouched) :=
  ⟨(cluster_gc_paths
      { cluster := some 0, state := .CLUSTER_CONFIGURING }).2.2.1 (by decide),
   (cluster_gc_paths
      { cluster := some 0, state := .CLUSTER_CONNECTED }).2.2.2.2 rfl⟩

/-- C2: stat and read set the locator key on the io context just before
the backend call and set it back to none just after, before the status is
even inspected, so the post-call context carries no key on the success
and error paths alike; the backend call itself observes exactly this
call's key (the backend functions are applied at `loc`); consequently,
for two sequential calls on the same context, the first call's key — and
indeed its whole argument list — has no influence on the second call. -/
lemma lua_rados_ioctx_stat_post (sb : StatBackend) (ioctx : lua_ioctx_t)
    (loc : Option String) (oid : String)
    (hopen : ioctx.state = .IOCTX_OPEN) :
    (lua_rados_ioctx_stat sb ioctx loc oid).2 =
      { locator := none, state := .IOCTX_OPEN } := by
  simp [lua_rados_ioctx_stat, rados_ioctx_locator_set_key, hopen]
  split <;> simp [hopen]

theorem locator_scoped (sb sb2 : StatBackend) (rb : ReadBackend)
    (ioctx : lua_ioctx_t) (loc locA loc2 : Option String)
    (oid oidA oid2 : String) (size size2 : Int) (off off2 : Nat)
    (mallocOk : Bool)
    (hopen : ioctx.state = .IOCTX_OPEN) (hloc : ioctx.locator = none) :
    ((lua_rados_ioctx_stat sb ioctx loc oid).2.locator = none) ∧
    ((lua_rados_ioctx_read rb ioctx loc oid size off mallocOk).2.locator =
      none) ∧
    ((lua_rados_ioctx_stat sb ioctx loc oid).1 =
      if sb.ret loc oid ≠ 0 then lua_rados_pusherror (sb.ret loc oid)
      else .ok (sb.size loc oid, sb.mtime loc oid)) ∧
    ((lua_rados_ioctx_read rb ioctx loc oid size off true).1 =
      match lua_rados_newbuffer_size size with
      | none => lua_rados_pusherror (-ENOMEM)
      | some bufsize =>
        if rb.ret loc oid size.toNat off < 0 then
          lua_rados_pusherror (rb.ret loc oid size.toNat off)
        else
          .ok ((overwrite (List.replicate bufsize 0)
                  (rb.fill loc oid size.toNat off)).take
                (rb.ret loc oid size.toNat off).toNat)) ∧
    (lua_rados_ioctx_stat sb2 (lua_rados_ioctx_stat sb ioctx loc oid).2
        loc2 oid2 =
      lua_rados_ioctx_stat sb2 (lua_rados_ioctx_stat sb ioctx locA oidA).2
        loc2 oid2) ∧
    (lua_rados_ioctx_read rb (lua_rados_ioctx_stat sb ioctx loc oid).2
        loc2 oid2 size2 off2 mallocOk =
      lua_rados_ioctx_read rb (lua_rados_ioctx_stat sb ioctx locA oidA).2
        loc2 oid2 size2 off2 mallocOk) := by
  refine ⟨?_, ?_, ?_, ?_, ?_, ?_⟩
  · rw [lua_rados_ioctx_stat_post sb ioctx loc oid hopen]
  · simp [lua_rados_ioctx_read, rados_ioctx_locator_set_key, hopen]
    split
    · simp [hloc]
    · simp [hloc]
    · split <;> simp
  · simp [lua_rados_ioctx_stat, rados_ioctx_locator_set_key, hopen]
    split <;> rfl
  · cases hnb : lua_rados_newbuffer_size size with
    | none =>
      simp [lua_rados_ioctx_read, rados_ioctx_locator_set_key, hopen, hnb]
    | some bufsize =>
      simp [lua_rados_ioctx_read, rados_ioctx_locator_set_key, hopen, hnb]
      split <;> simp_all
  · rw [lua_rados_ioctx_stat_post sb ioctx loc oid hopen,
        lua_rados_ioctx_stat_post sb ioctx locA oidA hopen]
  · rw [lua_rados_ioctx_stat_post sb ioctx loc oid hopen,
        lua_rados_ioctx_stat_post sb ioctx locA oidA hopen]

theorem locator_scoped_witness :
    (lua_rados_ioctx_stat sbZero ioctxOpen0 (some ("k")) ("obj")).2.locator =
      none :=
  (locator_scoped sbZero sbZero rbZero ioctxOpen0 (some ("k")) none none
    ("obj") ("obj") ("obj") 0 0 0 0 true rfl rfl).1

/-- C1 counterexample: a read-kind completion whose buffer holds 4 bytes
of a 4-byte request, harvested with backend status 2 (a short read of 2
bytes): get_return_value pushes all 4 stored bytes, not the sequence
truncated to the backend-reported actual length 2, so the claimed
truncation does not hold. -/
theorem get_return_value_no_truncation :
    (lua_rados_completion_get_return_value
        { completion := some 0, state := .COMPLETION_READ, size := 4,
          mtime := 0, buf := some [1, 2, 3, 4] } 2 =
      .ok (.readRes [1, 2, 3, 4])) ∧
    (lua_rados_completion_get_return_value
        { completion := some 0, state := .COMPLETION_READ, size := 4,
          mtime := 0, buf := some [1, 2, 3, 4] } 2 ≠
      .ok (.readRes (([1, 2, 3, 4] : Bytes).take (Int.toNat 2)))) := by
  decide

/-- C1 (amended): for a non-negative harvest status, a read-kind
completion whose stored buffer holds its stored size bytes returns the
entire stored buffer — the originally requested length — independently
of the status value; every stat-kind completion returns exactly the two
stored scalars; a negative harvest status yields the error triple for
either kind. -/
theorem get_return_value_shape (comp : lua_completion_t)
    (harvestRet : Int) :
    (∀ data : Bytes, comp.buf = some data → data.length = comp.size →
      0 ≤ harvestRet → comp.state = .COMPLETION_READ →
      lua_rados_completion_get_return_value comp harvestRet =
        .ok (.readRes data)) ∧
    (0 ≤ harvestRet → comp.state = .COMPLETION_STAT →
      lua_rados_completion_get_return_value comp harvestRet =
        .ok (.statRes comp.size comp.mtime)) ∧
    (harvestRet < 0 →
      lua_rados_completion_get_return_value comp harvestRet =
        lua_rados_pusherror harvestRet) := by
  refine ⟨?_, ?_, ?_⟩
  · intro data hbuf hlen hr hst
    simp [lua_rados_completion_get_return_value, not_lt.mpr hr, hst, hbuf,
      ← hlen]
  · intro hr hst
    simp [lua_rados_completion_get_return_value, not_lt.mpr hr, hst]
  · intro hr
    simp [lua_rados_completion_get_return_value, hr]

theorem get_return_value_shape_witness :
    (lua_rados_completion_get_return_value
        { completion := some 0, state := .COMPLETION_READ, size := 2,
          mtime := 0, buf := some [5, 6] } 0 =
      .ok (.readRes [5, 6])) ∧
    (lua_rados_completion_get_return_value
        { completion := some 1, state := .COMPLETION_STAT, size := 7,
          mtime := 3, buf := none } 0 =
      .ok (.statRes 7 3)) :=
  ⟨(get_return_value_shape
      { completion := some 0, state := .COMPLETION_READ, size := 2,
        mtime := 0, buf := some [5, 6] } 0).1 [5, 6] rfl rfl
      (by decide) rfl,
   (get_return_value_shape
      { completion := some 1, state := .COMPLETION_STAT, size := 7,
        mtime := 3, buf := none } 0).2.1 (by decide) rfl⟩

/-- C5 counterexample: an aio_read of requested length 0 on an open
context passes exactly 0 to malloc — the asynchronous path allocates
through a bare malloc of the stored size, not through
lua_rados_newbuffer, so the claimed size-at-least-1 allocation does not
hold for it. -/
theorem aio_read_zero_alloc :
    ((lua_rados_ioctx_aio_read arbZero ioctxOpen0 none ("obj") 0 0 0 true
        []).allocReq = some 0) ∧
    ¬1 ≤ (0 : Nat) := by
  constructor
  · rfl
  · decide

/-- C5 (amended): the synchronous read allocates through
lua_rados_newbuffer, whose allocation for a non-negative requested size
is max(size, 1) ≥ 1 zeroed bytes, and a zero-length synchronous read
returns the empty sequence on success (given the backend contract that
the success status is at most the requested size); the asynchronous
aio_read instead passes exactly the requested length to malloc, with no
minimum; each buffer is freed exactly once — a second buffer finalize or
completion finalize frees nothing. -/
theorem read_buffer_alloc (rb : ReadBackend) (arb : AioReadBackend)
    (ioctx : lua_ioctx_t) (loc : Option String) (oid : String)
    (size : Int) (off : Nat) (junk pbuf : Bytes) (sizeN tok : Nat)
    (comp : lua_completion_t)
    (hopen : ioctx.state = .IOCTX_OPEN) (hnn : 0 ≤ size) :
    (∃ n, lua_rados_newbuffer_size size = some n ∧ 1 ≤ n ∧
      (size = 0 → n = 1) ∧ (0 < size → n = size.toNat)) ∧
    (0 ≤ rb.ret loc oid 0 off → rb.ret loc oid 0 off ≤ 0 →
      (lua_rados_ioctx_read rb ioctx loc oid 0 off true).1 = .ok []) ∧
    ((lua_rados_ioctx_aio_read arb ioctx loc oid sizeN off tok true
        junk).allocReq = some sizeN) ∧
    ((lua_rados_buffer_gc (some pbuf)).2 = true) ∧
    ((lua_rados_buffer_gc (lua_rados_buffer_gc (some pbuf)).1).2 =
      false) ∧
    ((lua_rados_completion_gc (lua_rados_completion_gc comp).1).2.2 =
      false) := by
  refine ⟨?_, ?_, ?_, ?_, ?_, ?_⟩
  · by_cases hz : size = 0
    · exact ⟨1, by simp [lua_rados_newbuffer_size, hz], le_refl 1,
        fun _ => rfl, fun h => absurd h (by omega)⟩
    · have hp : 0 < size := lt_of_le_of_ne hnn (Ne.symm hz)
      refine ⟨size.toNat, ?_, by omega, fun h => absurd h hz, fun _ => rfl⟩
      simp [lua_rados_newbuffer_size, hz, not_lt.mpr hnn]
  · intro h1 h2
    have hz : rb.ret loc oid 0 off = 0 := le_antisymm h2 h1
    simp [lua_rados_ioctx_read, rados_ioctx_locator_set_key, hopen,
      lua_rados_newbuffer_size, hz]
  · simp [lua_rados_ioctx_aio_read, rados_ioctx_locator_set_key, hopen]
    split
    · split <;> rfl
    · rfl
  · rfl
  · rfl
  · obtain ⟨ct, cs, csize, cm, cb⟩ := comp
    cases ct <;> cases cs <;> cases cb <;>
      simp [lua_rados_completion_gc]

theorem read_buffer_alloc_witness :
    (lua_rados_ioctx_read rbZero ioctxOpen0 none ("obj") 0 0 true).1 =
      .ok [] :=
  (read_buffer_alloc rbZero arbZero ioctxOpen0 none ("obj") 0 0 [] [] 0 0
    { completion := none, state := .COMPLETION_STAT, size := 0,
      mtime := 0, buf := none } rfl (by decide)).2.1 (by decide) (by decide)

/-- C6: aio_stat on an open context, when the backend token creation
succeeds, creates a stat-kind completion holding the token before
submitting; the call's result is a function of the synchronous
submission status alone — the model takes no completion-time outcome as
input, so the completion is returned immediately without regard to
whether the operation will later report an error — with a synchronous
submission failure surfaced as the error triple (the completion, already
created and counted, is then not the returned value); the submission
observes exactly this call's locator key (`subRet`, `size`, `mtime` are
applied at `loc`), and the key is cleared before the call returns. -/
theorem aio_stat_submission (b : AioStatBackend) (ioctx : lua_ioctx_t)
    (loc : Option String) (oid : String) (tok : Nat)
    (hopen : ioctx.state = .IOCTX_OPEN) (hcr : b.createRet = 0) :
    ((lua_rados_ioctx_aio_stat b ioctx loc oid tok).comp =
      some { completion := some tok, state := .COMPLETION_STAT,
             size := b.size loc oid, mtime := b.mtime loc oid,
             buf := none }) ∧
    ((lua_rados_ioctx_aio_stat b ioctx loc oid tok).res =
      if b.subRet loc oid = 0 then
        .ok { completion := some tok, state := .COMPLETION_STAT,
              size := b.size loc oid, mtime := b.mtime loc oid,
              buf := none }
      else lua_rados_pusherror (b.subRet loc oid)) ∧
    ((lua_rados_ioctx_aio_stat b ioctx loc oid tok).io.locator = none) ∧
    ((lua_rados_ioctx_aio_stat b ioctx loc oid tok).delta = 1) := by
  refine ⟨?_, ?_, ?_, ?_⟩ <;>
    simp [lua_rados_ioctx_aio_stat, rados_ioctx_locator_set_key, hopen,
      hcr] <;>
    split <;> simp

theorem aio_stat_submission_witness :
    (lua_rados_ioctx_aio_stat asbZero ioctxOpen0 (some ("k")) ("obj")
        3).res =
      if asbZero.subRet (some ("k")) ("obj") = 0 then
        .ok { completion := some 3, state := .COMPLETION_STAT,
              size := asbZero.size (some ("k")) ("obj"),
              mtime := asbZero.mtime (some ("k")) ("obj"),
              buf := none }
      else lua_rados_pusherror (asbZero.subRet (some ("k")) ("obj")) :=
  (aio_stat_submission asbZero ioctxOpen0 (some ("k")) ("obj") 3 rfl
    rfl).2.1

/-- C7 counterexample: on a connected cluster, a numeric (hence
non-string) pool name does not fail with the raised invalid-argument
error: luaL_checkstring coerces the number to its decimal string, the
backend is consulted, and its rejection comes back as the recoverable
error triple (the repository's own test asserts this by expecting nil
from open_ioctx(23423432)). -/
theorem open_ioctx_numeric_pool :
    ((lua_rados_open_ioctx
        { cluster := some 0, state := .CLUSTER_CONNECTED }
        (.vnum 23423432) (fun _ => -2)).1 = .err 2 (-2)) ∧
    ((CallResult.err 2 (-2) : CallResult lua_ioctx_t) ≠
      .raised .string_expected) := by
  constructor
  · rfl
  · decide

/-- C7 (amended): open_ioctx on a shutdown cluster raises the
reuse-after-shutdown argument error and on a configuring cluster the
not-connected argument error, in both cases before any native context is
allocated; on a connected cluster, a pool name that is neither a string
nor a number (a number is coerced to its decimal string) raises the
invalid-argument error; a backend rejection of the pool name surfaces as
the recoverable error triple with no native context allocated; backend
acceptance yields an open context. -/
theorem open_ioctx_checks (rados : lua_rados_t) (pool : LuaValue)
    (f : String → Int) :
    (rados.state = .CLUSTER_SHUTDOWN →
      lua_rados_open_ioctx rados pool f =
        (.raised .reuse_shutdown_rados, false)) ∧
    (rados.state = .CLUSTER_CONFIGURING →
      lua_rados_open_ioctx rados pool f =
        (.raised .not_connected, false)) ∧
    (rados.state = .CLUSTER_CONNECTED → luaL_checkstring pool = none →
      lua_rados_open_ioctx rados pool f =
        (.raised .string_expected, false)) ∧
    (∀ s, rados.state = .CLUSTER_CONNECTED →
      luaL_checkstring pool = some s →
      (f s ≠ 0 →
        lua_rados_open_ioctx rados pool f =
          (lua_rados_pusherror (f s), false)) ∧
      (f s = 0 →
        lua_rados_open_ioctx rados pool f =
          (.ok { locator := none, state := .IOCTX_OPEN }, true))) ∧
    (luaL_checkstring pool = none ↔ pool = .vnil ∨ pool = .vtable) := by
  obtain ⟨c, st⟩ := rados
  refine ⟨?_, ?_, ?_, ?_, ?_⟩
  · intro hs
    cases st <;> simp_all [lua_rados_open_ioctx]
  · intro hs
    cases st <;> simp_all [lua_rados_open_ioctx]
  · intro hs hp
    cases st <;> simp_all [lua_rados_open_ioctx]
  · intro s hs hp
    constructor <;> intro hf <;>
      cases st <;> simp_all [lua_rados_open_ioctx]
  · cases pool <;> simp [luaL_checkstring]

theorem open_ioctx_checks_witness :
    lua_rados_open_ioctx { cluster := some 0, state := .CLUSTER_CONNECTED }
        (.vstr ("mypool")) (fun _ => 0) =
      (.ok { locator := none, state := .IOCTX_OPEN }, true) :=
  ((open_ioctx_checks { cluster := some 0, state := .CLUSTER_CONNECTED }
      (.vstr ("mypool")) (fun _ => 0)).2.2.2.1 ("mypool") rfl rfl).2 rfl

/-- C8: every expected failure is reported through
lua_rados_pusherror, i.e. as the three-part result of nil, a message
derived from the negated status, and the raw status — never as a raised
error: exhibited here for the backend failures of stat and connect, and
for the scratch-buffer allocation failures of the synchronous read (both
a malloc failure and a negative size), which reuse the very same shape
with the fixed out-of-memory status -ENOMEM rather than a distinct
shape. -/
theorem error_triple_protocol (ret : Int) (sb : StatBackend)
    (rb : ReadBackend) (ioctx : lua_ioctx_t) (loc : Option String)
    (oid : String) (size : Int) (off : Nat) (rados : lua_rados_t)
    (anyOk : Bool) (hopen : ioctx.state = .IOCTX_OPEN) :
    ((lua_rados_pusherror ret : CallResult Int) = .err (-ret) ret) ∧
    (sb.ret loc oid ≠ 0 →
      (lua_rados_ioctx_stat sb ioctx loc oid).1 =
        .err (-(sb.ret loc oid)) (sb.ret loc oid)) ∧
    (rados.state = .CLUSTER_CONFIGURING → ret ≠ 0 →
      (lua_rados_connect rados ret).1 = .err (-ret) ret) ∧
    (0 ≤ size →
      (lua_rados_ioctx_read rb ioctx loc oid size off false).1 =
        .err ENOMEM (-ENOMEM)) ∧
    (size < 0 →
      (lua_rados_ioctx_read rb ioctx loc oid size off anyOk).1 =
        .err ENOMEM (-ENOMEM)) := by
  refine ⟨rfl, ?_, ?_, ?_, ?_⟩
  · intro hr
    simp [lua_rados_ioctx_stat, rados_ioctx_locator_set_key, hopen, hr,
      lua_rados_pusherror]
  · intro hs hr
    obtain ⟨c, st⟩ := rados
    cases st <;>
      simp_all [lua_rados_connect, lua_rados_pushresult,
        lua_rados_pusherror]
  · intro hnn
    have hnb : lua_rados_newbuffer_size size =
        some (if size = 0 then 1 else size.toNat) := by
      simp [lua_rados_newbuffer_size, not_lt.mpr hnn]
      split <;> simp
    simp [lua_rados_ioctx_read, hopen, hnb, lua_rados_pusherror]
  · intro hneg
    have hnb : lua_rados_newbuffer_size size = none := by
      simp [lua_rados_newbuffer_size, hneg]
    simp [lua_rados_ioctx_read, hopen, hnb, lua_rados_pusherror]

theorem error_triple_protocol_witness :
    (lua_rados_ioctx_read rbZero ioctxOpen0 none ("obj") 4 0 false).1 =
      .err ENOMEM (-ENOMEM) :=
  (error_triple_protocol 0 sbZero rbZero ioctxOpen0 none ("obj") 4 0
    { cluster := some 0, state := .CLUSTER_CONFIGURING } false
    rfl).2.2.2.1 (by decide)

lemma liveTokens_append (l : List lua_completion_t)
    (c : lua_completion_t) :
    liveTokens (l ++ [c]) =
      liveTokens l + (if c.completion.isSome then 1 else 0) := by
  induction l with
  | nil => simp [liveTokens]
  | cons a t ih => simp [liveTokens, ih]; omega

lemma liveTokens_set (l : List lua_completion_t) (i : Nat)
    (comp comp2 : lua_completion_t) (h : l[i]? = some comp) :
    liveTokens (l.set i comp2) +
        (if comp.completion.isSome then 1 else 0) =
      liveTokens l + (if comp2.completion.isSome then 1 else 0) := by
  induction l generalizing i with
  | nil => simp at h
  | cons a t ih =>
    cases i with
    | zero =>
      simp at h
      subst h
      simp [liveTokens, List.set]
      omega
    | succ j =>
      simp at h
      have hj := ih j h
      simp [liveTokens, List.set]
      omega

lemma completion_gc_token (comp : lua_completion_t) :
    (lua_rados_completion_gc comp).1.completion = none ∧
    (lua_rados_completion_gc comp).2.1 =
      if comp.completion.isSome then -1 else 0 := by
  obtain ⟨ct, cs, csize, cm, cb⟩ := comp
  cases ct <;> cases cs <;> cases cb <;> simp [lua_rados_completion_gc]

lemma stepWorld_inv (w : RadosWorld) (e : WEvent)
    (h : w.active_completions = (liveTokens w.comps : Int)) :
    (stepWorld w e).active_completions =
      (liveTokens (stepWorld w e).comps : Int) := by
  cases e with
  | aioCreate createOk kind tok =>
    simp only [stepWorld, liveTokens_append]
    cases createOk <;> simp [h]
  | compGc i =>
    cases hc : w.comps[i]? with
    | none => simpa [stepWorld, hc] using h
    | some comp =>
      simp only [stepWorld, hc]
      have hset := liveTokens_set w.comps i comp
        (lua_rados_completion_gc comp).1 hc
      have htok := completion_gc_token comp
      rw [htok.1] at hset
      simp only [Option.isSome_none, Bool.false_eq_true, if_false] at hset
      rw [htok.2]
      cases hs : comp.completion.isSome <;> simp [hs] at hset ⊢ <;> omega

lemma runWorld_inv (es : List WEvent) :
    (runWorld es).active_completions =
      (liveTokens (runWorld es).comps : Int) := by
  suffices h : ∀ w, w.active_completions = (liveTokens w.comps : Int) →
      (es.foldl stepWorld w).active_completions =
        (liveTokens (es.foldl stepWorld w).comps : Int) by
    exact h initWorld (by simp [initWorld, liveTokens])
  induction es with
  | nil => intro w hw; exact hw
  | cons e t ih => intro w hw; exact ih _ (stepWorld_inv w e hw)

/-- C9: along every sequence of events — aio submissions whose token
creation succeeded or failed, and completion finalizations in any order —
the process-wide counter read by open_completions equals the number of
live completions holding a native async token; and the counter-relevant
effects of the call surface are exactly as the event model says: an aio
call increments by one exactly when its token creation succeeds (exactly
then does the new completion hold a token), and the finalizer decrements
by one exactly when the completion still holds its token, which it then
nulls so a second finalization has no further effect. -/
theorem active_completions_counts_live_tokens :
    (∀ es : List WEvent,
      lua_rados_open_completions (runWorld es) =
        (liveTokens (runWorld es).comps : Int)) ∧
    (∀ (b : AioStatBackend) (ioctx : lua_ioctx_t) (loc : Option String)
        (oid : String) (tok : Nat),
      (lua_rados_ioctx_aio_stat b ioctx loc oid tok).delta =
        if ioctx.state = .IOCTX_OPEN ∧ b.createRet = 0 then 1 else 0) ∧
    (∀ (b : AioReadBackend) (ioctx : lua_ioctx_t) (loc : Option String)
        (oid : String) (size off tok : Nat) (mallocOk : Bool)
        (junk : Bytes),
      (lua_rados_ioctx_aio_read b ioctx loc oid size off tok mallocOk
          junk).delta =
        if ioctx.state = .IOCTX_OPEN ∧ mallocOk = true ∧ b.createRet = 0
        then 1 else 0) ∧
    (∀ comp : lua_completion_t,
      (lua_rados_completion_gc comp).2.1 =
        (if comp.completion.isSome then -1 else 0) ∧
      (lua_rados_completion_gc comp).1.completion = none) := by
  refine ⟨fun es => runWorld_inv es, ?_, ?_, ?_⟩
  · intro b ioctx loc oid tok
    by_cases hst : ioctx.state = .IOCTX_OPEN <;>
      by_cases hcr : b.createRet = 0 <;>
      simp [lua_rados_ioctx_aio_stat, rados_ioctx_locator_set_key, hst,
        hcr] <;>
      split <;> simp
  · intro b ioctx loc oid size off tok mallocOk junk
    by_cases hst : ioctx.state = .IOCTX_OPEN <;>
      cases mallocOk <;>
      by_cases hcr : b.createRet = 0 <;>
      simp [lua_rados_ioctx_aio_read, rados_ioctx_locator_set_key, hst,
        hcr] <;>
      split <;> simp
  · intro comp
    exact ⟨(completion_gc_token comp).2, (completion_gc_token comp).1⟩

end LuaRados
